import Mathlib

/-!
Shallow embedding of `GPflow/misc.py`: utility helpers of a Gaussian-process
library.  The module provides tensor naming and lookup in a computation
graph, runtime classification of Python values, management of the graph's
trainable-variables collection, dtype normalization, and a batched
vector-to-lower-triangular-matrix packing.

Python values relevant to the classification predicates are modelled by an
inductive type; the computation graph is modelled at the interface level the
module uses: an association list from `name:index` address strings to tensor
ids, a graph identity string, and the trainables collection as a mutable
list (TensorFlow collections are Python lists; `add_to_collection` appends,
`list.remove` deletes the first occurrence).
-/

deriving instance DecidableEq for Except

/-- Errors raised by the module: Python `ValueError` and the library's own
`GPflowError`, each carrying its message string. -/
inductive PyError where
  | valueError (msg : String)
  | gpflowError (msg : String)
deriving DecidableEq, Repr

/-- Model of the Python values that the classification predicates of
`misc.py` inspect: `None`, booleans, ints, floats (payload modelled as an
integer; only the runtime type matters to the predicates), strings, bytes,
numpy `ndarray`s (carrying their shape), TensorFlow tensors and variables,
and plain lists. -/
inductive PyValue where
  | none
  | pyBool (b : Bool)
  | pyInt (n : Int)
  | pyFloat (n : Int)
  | pyStr (s : String)
  | pyBytes (s : String)
  | ndarray (dims : List Nat)
  | tfTensor (id : Nat)
  | tfVariable (id : Nat)
  | pyList (len : Nat)
deriving DecidableEq, Repr

namespace PyValue

/-- `value is None`. -/
def isNone : PyValue → Bool
  | .none => true
  | _ => false

/-- `isinstance(value, str)`. -/
def isStr : PyValue → Bool
  | .pyStr _ => true
  | _ => false

/-- `np.isscalar(value)`: true for Python ints, floats, bools, strings and
bytes; false for `None`, ndarrays, graph tensors/variables and lists. -/
def isScalar : PyValue → Bool
  | .pyBool _ => true
  | .pyInt _ => true
  | .pyFloat _ => true
  | .pyStr _ => true
  | .pyBytes _ => true
  | _ => false

end PyValue

/-- `is_ndarray(value)`: `isinstance(value, np.ndarray)`. -/
def is_ndarray : PyValue → Bool
  | .ndarray _ => true
  | _ => false

/-- `is_tensor(value)`: `isinstance(value, (tf.Tensor, tf.Variable))`. -/
def is_tensor : PyValue → Bool
  | .tfTensor _ => true
  | .tfVariable _ => true
  | _ => false

/-- `is_number(value)`: `(not isinstance(value, str)) and np.isscalar(value)`. -/
def is_number (value : PyValue) : Bool :=
  (!value.isStr) && value.isScalar

/-- `is_valid_param_value(value)`: the Python expression
`(value is not None) and is_number(value) or is_ndarray(value) or
is_tensor(value)`, with Python's precedence: `and` binds tighter than
`or`. -/
def is_valid_param_value (value : PyValue) : Bool :=
  ((!value.isNone) && is_number value) || is_ndarray value || is_tensor value

/-- `tensor_name(*subnames)`: `'/'.join(subnames)`. -/
def tensor_name (subnames : List String) : String :=
  String.intercalate "/" subnames

/-- Model of a TensorFlow computation graph at the interface this module
uses: an identity (stands for the graph object's repr), the tensors
addressable by exact `name:index` strings, and the trainable-variables
collection, a list of variable names kept in insertion order. -/
structure Graph where
  ident : String
  tensors : List (String × Nat)
  trainables : List String
deriving DecidableEq, Repr

/-- `graph.get_tensor_by_name(addr)` at the interface level: returns the
tensor stored at the exact address, or a not-found condition (`KeyError`,
here `Option.none`) when absent. -/
def Graph.lookupTensor (g : Graph) (addr : String) : Option Nat :=
  (g.tensors.find? (fun p => p.1 == addr)).map (fun p => p.2)

/-- `_get_tensor_by_name(name, index, graph)`: looks up
`':'.join([name, index])`, turning the not-found condition into `None`. -/
def _get_tensor_by_name (name index : String) (g : Graph) : Option Nat :=
  g.lookupTensor (String.intercalate ":" [name, index])

/-- `get_tensor_by_name(name, index=None, graph=...)`: with an explicit
index, looks up that exact address; with index omitted, looks up index
`"0"`, returns `None` if absent, and otherwise raises a `ValueError` when
index `"1"` also resolves (ambiguous), else returns the index-`0` tensor. -/
def get_tensor_by_name (name : String) (index : Option String) (g : Graph) :
    Except PyError (Option Nat) :=
  match index with
  | some i => .ok (_get_tensor_by_name name i g)
  | Option.none =>
    match _get_tensor_by_name name "0" g with
    | Option.none => .ok Option.none
    | some tensor =>
      if (_get_tensor_by_name name "1" g).isSome then
        .error (.valueError
          ("Ambiguous tensor for \"" ++ name ++ "\" with multiple indices found."))
      else .ok (some tensor)

/-- `add_to_trainables(variable, graph)`: appends the variable to the
graph's trainables collection only when it is not already a member
(TensorFlow's `add_to_collection` appends to the list). -/
def add_to_trainables (v : String) (g : Graph) : Graph :=
  if v ∈ g.trainables then g
  else { g with trainables := g.trainables ++ [v] }

/-- `remove_from_trainables(variable, graph)`: raises a `GPflowError`
naming the variable and the graph when the variable is not a member;
otherwise deletes the first occurrence from the live collection
(Python's `list.remove`). -/
def remove_from_trainables (v : String) (g : Graph) : Except PyError Graph :=
  if v ∈ g.trainables then
    .ok { g with trainables := g.trainables.erase v }
  else
    .error (.gpflowError
      ("TensorFlow variable " ++ v ++ " not found in the graph " ++ g.ident))

/-- Numpy elemental types that can appear as a dtype's `.type` tag. -/
inductive NpType where
  | float16
  | float32
  | float64
  | int16
  | int32
  | int64
  | npBool
  | npStr
deriving DecidableEq, Repr, Fintype

/-- TensorFlow `tf.DType` wrapper objects mirroring the numpy elemental
types. -/
inductive TfDtype where
  | tfFloat16
  | tfFloat32
  | tfFloat64
  | tfInt16
  | tfInt32
  | tfInt64
  | tfBool
  | tfString
deriving DecidableEq, Repr, Fintype

/-- `tf.DType.as_numpy_dtype`: the numpy elemental type underlying a
TensorFlow dtype wrapper. -/
def TfDtype.as_numpy_dtype : TfDtype → NpType
  | .tfFloat16 => .float16
  | .tfFloat32 => .float32
  | .tfFloat64 => .float64
  | .tfInt16 => .int16
  | .tfInt32 => .int32
  | .tfInt64 => .int64
  | .tfBool => .npBool
  | .tfString => .npStr

/-- The TensorFlow wrapper corresponding to a numpy elemental type. -/
def NpType.toTf : NpType → TfDtype
  | .float16 => .tfFloat16
  | .float32 => .tfFloat32
  | .float64 => .tfFloat64
  | .int16 => .tfInt16
  | .int32 => .tfInt32
  | .int64 => .tfInt64
  | .npBool => .tfBool
  | .npStr => .tfString

/-- Name of a numpy elemental type, as interpolated into error messages. -/
def NpType.name : NpType → String
  | .float16 => "float16"
  | .float32 => "float32"
  | .float64 => "float64"
  | .int16 => "int16"
  | .int32 => "int32"
  | .int64 => "int64"
  | .npBool => "bool"
  | .npStr => "str"

/-- A dtype-like value as `normalize_dtype` receives and returns it: either
a raw numpy dtype descriptor or a TensorFlow `tf.DType` wrapper object. -/
inductive DtypeLike where
  | np (t : NpType)
  | tf (d : TfDtype)
deriving DecidableEq, Repr

/-- The elemental type of a dtype-like value (`value.dtype.type`). -/
def DtypeLike.elem : DtypeLike → NpType
  | .np t => t
  | .tf d => d.as_numpy_dtype

/-- `tf.as_dtype`: coerces a dtype-like value to a TensorFlow dtype wrapper
(a wrapper is returned unchanged; a raw numpy type is wrapped). -/
def tf_as_dtype : DtypeLike → TfDtype
  | .tf d => d
  | .np t => t.toTf

/-- `normalize_dtype(value)`, parameterized by the process-wide configured
`FLOAT_TYPE` (a TensorFlow dtype read from the settings object at load
time).  A `tf.DType` input is unwrapped to its numpy elemental type first
and the `tf_type` flag recorded; 32/64-bit floats normalize to `FLOAT_TYPE`
(itself a TensorFlow dtype object), 16/32/64-bit ints normalize to raw
`np.int32`, anything else raises `ValueError` naming the (unwrapped)
value; a flagged input is passed through `tf.as_dtype` on the way out. -/
def normalize_dtype (FLOAT_TYPE : TfDtype) (value : DtypeLike) :
    Except PyError DtypeLike :=
  let tf_type : Bool := match value with
    | .tf _ => true
    | .np _ => false
  let value : DtypeLike := match value with
    | .tf d => .np d.as_numpy_dtype
    | v => v
  if value.elem = .float32 ∨ value.elem = .float64 then
    let value : DtypeLike := .tf FLOAT_TYPE
    .ok (if tf_type then .tf (tf_as_dtype value) else value)
  else if value.elem = .int16 ∨ value.elem = .int32 ∨ value.elem = .int64 then
    let value : DtypeLike := .np .int32
    .ok (if tf_type then .tf (tf_as_dtype value) else value)
  else
    .error (.valueError ("Unknown dtype \"" ++ value.elem.name ++ "\"."))

/-- `np.tril_indices(N)`, zipped into coordinate pairs: the lower-triangle
(diagonal included) coordinates of an N×N matrix enumerated in row-major
order: (0,0), (1,0), (1,1), (2,0), (2,1), (2,2), ... -/
def tril_indices (N : Nat) : List (Nat × Nat) :=
  (List.range N).flatMap (fun i => (List.range (i + 1)).map (fun j => (i, j)))

/-- The entry a `tf.scatter_nd` output holds at coordinate `p`: the sum of
the updates whose paired index equals `p` (zero when none does). -/
def scatterEntry (indices : List (Nat × Nat)) (updates : List Int)
    (p : Nat × Nat) : Int :=
  ((indices.zip updates).filter (fun q => q.1 == p)).foldl
    (fun acc q => acc + q.2) 0

/-- `tf.scatter_nd(indices, updates, shape)` for a rank-2 shape: a dense
matrix of the given shape whose entry at each coordinate accumulates the
updates scattered there, all other entries zero. -/
def scatter_nd (indices : List (Nat × Nat)) (shape : Nat × Nat)
    (updates : List Int) : List (List Int) :=
  (List.range shape.1).map (fun i =>
    (List.range shape.2).map (fun j => scatterEntry indices updates (i, j)))

/-- `vec_to_tri(vectors, N)`: maps `tf.scatter_nd` with the shared
`tril_indices N` index set over the leading (batch) dimension of
`vectors` (`tf.map_fn`). -/
def vec_to_tri (vectors : List (List Int)) (N : Nat) : List (List (List Int)) :=
  vectors.map (fun vector => scatter_nd (tril_indices N) (N, N) vector)

/-- Total access to entry `(i, j)` of a matrix represented as a list of
rows, defaulting to zero out of bounds. -/
def matEntry (m : List (List Int)) (i j : Nat) : Int :=
  (m.getD i []).getD j 0

/-- Spec-level rendering of "the segments joined by `/`", used to compare
`tensor_name` against the specification's wording. -/
def joinWithSlash : List String → String
  | [] => ""
  | [s] => s
  | s :: rest => s ++ "/" ++ joinWithSlash rest

theorem intercalate_go_spec (l : List String) :
    ∀ acc : String, String.intercalate.go acc "/" l =
      acc ++ (match l with
              | [] => ""
              | s :: rest => "/" ++ joinWithSlash (s :: rest)) := by
  induction l with
  | nil => intro acc; simp [String.intercalate.go]
  | cons a as ih =>
    intro acc
    cases as with
    | nil => simp [String.intercalate.go, joinWithSlash, String.append_assoc]
    | cons b bs =>
      rw [show String.intercalate.go acc "/" (a :: b :: bs) =
            String.intercalate.go (acc ++ "/" ++ a) "/" (b :: bs) from rfl, ih]
      simp [joinWithSlash, String.append_assoc]

theorem tensor_name_eq_joinWithSlash (parts : List String) :
    tensor_name parts = joinWithSlash parts := by
  cases parts with
  | nil => rfl
  | cons a as =>
    rw [show tensor_name (a :: as) = String.intercalate.go a "/" as from rfl,
      intercalate_go_spec]
    cases as with
    | nil => simp [joinWithSlash]
    | cons b bs => simp [joinWithSlash, String.append_assoc]

/-- C8: `tensor_name(*parts)` joins the given segments with `/` and does no
validation: it agrees with the spec-level join on every list of segments,
`tensor_name("a","b","c")` is `"a/b/c"`, and with no arguments it returns
the empty string. -/
theorem C8_tensor_name :
    (∀ parts : List String, tensor_name parts = joinWithSlash parts) ∧
    tensor_name ["a", "b", "c"] = "a/b/c" ∧
    tensor_name [] = "" :=
  ⟨tensor_name_eq_joinWithSlash, by decide, rfl⟩

/-- C4: `is_valid_param_value` as written (Python precedence
`(not-null and is-number) or is-array or is-tensor`) agrees on every value
with the spec's reading `not-null and (is-number or is-array or
is-tensor)`: a `None` value is never an ndarray or a tensor, so the two
groupings coincide. -/
theorem C4_is_valid_param_value_precedence (value : PyValue) :
    is_valid_param_value value =
      ((!value.isNone) && (is_number value || is_ndarray value || is_tensor value)) := by
  cases value <;> rfl

/-- C7: `is_number(value)` is true iff the value is a scalar and not a
string instance; in particular `is_number(5)` and `is_number(5.0)` are
true while `is_number("5")` and `is_number` of an ndarray are false. -/
theorem C7_is_number :
    (∀ value : PyValue, is_number value = (value.isScalar && !value.isStr)) ∧
    is_number (.pyInt 5) = true ∧
    is_number (.pyFloat 5) = true ∧
    is_number (.pyStr "5") = false ∧
    (∀ dims, is_number (.ndarray dims) = false) := by
  refine ⟨fun value => ?_, rfl, rfl, rfl, fun dims => rfl⟩
  cases value <;> rfl

/-- C10: only `str` instances are excluded before the scalar check, so
`is_number` accepts Python booleans and bytes objects, and consequently
`is_valid_param_value` accepts them too. -/
theorem C10_is_number_bool_bytes :
    (∀ b : Bool, is_number (.pyBool b) = true) ∧
    (∀ s : String, is_number (.pyBytes s) = true) ∧
    is_number (.pyBool true) = true ∧
    is_number (.pyBytes "5") = true ∧
    is_valid_param_value (.pyBool true) = true ∧
    is_valid_param_value (.pyBytes "5") = true ∧
    (∀ b : Bool, is_valid_param_value (.pyBool b) = true) ∧
    (∀ s : String, is_valid_param_value (.pyBytes s) = true) :=
  ⟨fun _ => rfl, fun _ => rfl, rfl, rfl, rfl, rfl, fun _ => rfl, fun _ => rfl⟩

/-- C6 counterexample: the trainables collection is a list and TensorFlow
permits duplicate entries in it; starting from a graph whose collection
already holds `v` twice, both calls to `add_to_trainables` are no-ops, so
"calling it twice leaves the collection containing exactly one instance of
`v`" fails as a statement about every graph. -/
theorem C6_counterexample :
    (add_to_trainables "v" (add_to_trainables "v"
      (Graph.mk "g" [] ["v", "v"]))).trainables.count "v" ≠ 1 := by decide

/-- C6 (amended): `add_to_trainables` is idempotent and never errors on a
duplicate insert — it appends `v` only when `v` is absent — so after two
calls `v` is a member and, whenever `v` was not already in the collection,
the collection holds exactly one instance of `v` (an existing positive
count is left unchanged instead). -/
theorem C6_add_to_trainables_idempotent (v : String) (g : Graph) :
    add_to_trainables v (add_to_trainables v g) = add_to_trainables v g ∧
    v ∈ (add_to_trainables v g).trainables ∧
    (v ∉ g.trainables →
      (add_to_trainables v (add_to_trainables v g)).trainables.count v = 1) := by
  by_cases h : v ∈ g.trainables
  · refine ⟨?_, ?_, fun hab => absurd h hab⟩
    · simp [add_to_trainables, h]
    · simp [add_to_trainables, h]
  · have hmem : v ∈ (add_to_trainables v g).trainables := by
      simp [add_to_trainables, h]
    refine ⟨?_, hmem, fun _ => ?_⟩
    · simp [add_to_trainables, h, hmem]
    · simp [add_to_trainables, h, hmem, List.count_append,
        List.count_eq_zero.mpr h]

/-- C6 witness: adding `"v"` twice to a graph with an empty trainables
collection leaves exactly one instance of `"v"`. -/
theorem C6_witness :
    (add_to_trainables "v" (add_to_trainables "v"
      (Graph.mk "g" [] []))).trainables.count "v" = 1 :=
  (C6_add_to_trainables_idempotent "v" (Graph.mk "g" [] [])).2.2 (by decide)

/-- C5 counterexample: with the trainables collection holding `v` twice
(duplicates are representable in a TensorFlow collection list),
`remove_from_trainables` succeeds but deletes only the first occurrence, so
a membership query afterwards is still true, refuting "removes v's
membership" as a statement about every graph. -/
theorem C5_counterexample :
    remove_from_trainables "v" (Graph.mk "g" [] ["v", "v"]) =
      Except.ok (Graph.mk "g" [] ["v"]) ∧
    "v" ∈ (Graph.mk "g" [] ["v"]).trainables := by decide

/-- C5 (amended): when `v` is not a member of the trainables collection,
`remove_from_trainables` fails with a `GPflowError` whose message carries
the variable and the graph identity; when `v` is a member, it removes the
first occurrence of `v` from the live collection (decrementing its count by
one), so whenever the collection held at most one occurrence of `v` a
membership query afterwards is false. -/
theorem C5_remove_from_trainables (v : String) (g : Graph) :
    (v ∉ g.trainables →
      remove_from_trainables v g = Except.error (PyError.gpflowError
        ("TensorFlow variable " ++ v ++ " not found in the graph " ++ g.ident))) ∧
    (v ∈ g.trainables →
      remove_from_trainables v g =
        Except.ok { g with trainables := g.trainables.erase v } ∧
      (g.trainables.erase v).count v = g.trainables.count v - 1 ∧
      (g.trainables.count v ≤ 1 → v ∉ g.trainables.erase v)) := by
  constructor
  · intro h
    simp [remove_from_trainables, h]
  · intro h
    refine ⟨by simp [remove_from_trainables, h], List.count_erase_self v g.trainables, ?_⟩
    intro hle hmem
    have h1 : 1 ≤ g.trainables.count v := List.count_pos_iff.mpr h
    have h2 : 1 ≤ (g.trainables.erase v).count v := List.count_pos_iff.mpr hmem
    rw [List.count_erase_self] at h2
    omega

/-- C5 witness: removing the sole member `"v"` succeeds and leaves it out of
the collection; removing the absent `"w"` fails with the `GPflowError`
message naming the variable and the graph. -/
theorem C5_witness :
    remove_from_trainables "v" (Graph.mk "g" [] ["v"]) =
      Except.ok (Graph.mk "g" [] []) ∧
    remove_from_trainables "w" (Graph.mk "g" [] ["v"]) =
      Except.error (PyError.gpflowError
        "TensorFlow variable w not found in the graph g") := by
  constructor
  · exact (((C5_remove_from_trainables "v" (Graph.mk "g" [] ["v"])).2
      (by decide)).1).trans (by decide)
  · exact ((C5_remove_from_trainables "w" (Graph.mk "g" [] ["v"])).1
      (by decide)).trans (by decide)

/-- C9: assuming the trainables collection holds at most one occurrence of
each variable, `add_to_trainables` preserves that invariant (it inserts
only when absent), and a successful `remove_from_trainables` returns the
collection with exactly the first occurrence of `v` erased — its count of
`v` drops by one — and preserves the invariant as well. -/
theorem C9_trainables_nodup_invariant (v : String) (g : Graph) :
    (g.trainables.Nodup → (add_to_trainables v g).trainables.Nodup) ∧
    (∀ g', remove_from_trainables v g = Except.ok g' →
      g'.trainables = g.trainables.erase v ∧
      g'.trainables.count v = g.trainables.count v - 1 ∧
      (g.trainables.Nodup → g'.trainables.Nodup)) := by
  constructor
  · intro hnd
    by_cases h : v ∈ g.trainables
    · simpa [add_to_trainables, h] using hnd
    · simp only [add_to_trainables, h, if_false]
      simpa [List.nodup_append] using ⟨hnd, h⟩
  · intro g' hok
    by_cases h : v ∈ g.trainables
    · simp only [remove_from_trainables, h, if_true, Except.ok.injEq] at hok
      subst hok
      exact ⟨rfl, List.count_erase_self v g.trainables, fun hnd => hnd.erase v⟩
    · simp [remove_from_trainables, h] at hok

/-- C9 witness: adding `"v"` to a duplicate-free collection keeps it
duplicate-free, and successfully removing `"v"` erases its (first and only)
occurrence. -/
theorem C9_witness :
    (add_to_trainables "v" (Graph.mk "g" [] ["w"])).trainables.Nodup ∧
    (Graph.mk "g" [] []).trainables =
      (Graph.mk "g" [] ["v"]).trainables.erase "v" := by
  constructor
  · exact (C9_trainables_nodup_invariant "v" (Graph.mk "g" [] ["w"])).1 (by decide)
  · exact ((C9_trainables_nodup_invariant "v" (Graph.mk "g" [] ["v"])).2
      (Graph.mk "g" [] []) (by decide)).1

/-- C2: with `index` omitted, `get_tensor_by_name` returns the not-found
sentinel (no exception) when nothing is stored at `name:0`; fails with the
ambiguous-tensor `ValueError` when tensors exist at both `name:0` and
`name:1`; and otherwise returns the tensor at `name:0`. -/
theorem C2_get_tensor_by_name (name : String) (g : Graph) :
    (_get_tensor_by_name name "0" g = Option.none →
      get_tensor_by_name name Option.none g = Except.ok Option.none) ∧
    ((_get_tensor_by_name name "0" g).isSome = true →
     (_get_tensor_by_name name "1" g).isSome = true →
      get_tensor_by_name name Option.none g = Except.error (PyError.valueError
        ("Ambiguous tensor for \"" ++ name ++ "\" with multiple indices found."))) ∧
    (_get_tensor_by_name name "1" g = Option.none →
      get_tensor_by_name name Option.none g =
        Except.ok (_get_tensor_by_name name "0" g)) := by
  refine ⟨fun h0 => ?_, fun h0 h1 => ?_, fun h1 => ?_⟩
  · simp [get_tensor_by_name, h0]
  · rcases Option.isSome_iff_exists.mp h0 with ⟨t, ht⟩
    simp [get_tensor_by_name, ht, h1]
  · cases h0 : _get_tensor_by_name name "0" g with
    | none => simp [get_tensor_by_name, h0]
    | some t => simp [get_tensor_by_name, h0, h1]

/-- C2 witness: in a graph holding both `foo:0` and `foo:1` the omitted-index
lookup of `"foo"` fails as ambiguous; in a graph holding only `foo:0`, the
lookup of `"bar"` returns the not-found sentinel and the lookup of `"foo"`
returns the tensor at `foo:0`. -/
theorem C2_witness :
    get_tensor_by_name "foo" Option.none
        (Graph.mk "g" [("foo:0", 10), ("foo:1", 11)] []) =
      Except.error (PyError.valueError
        "Ambiguous tensor for \"foo\" with multiple indices found.") ∧
    get_tensor_by_name "bar" Option.none (Graph.mk "g" [("foo:0", 10)] []) =
      Except.ok Option.none ∧
    get_tensor_by_name "foo" Option.none (Graph.mk "g" [("foo:0", 10)] []) =
      Except.ok (some 10) := by
  refine ⟨?_, ?_, ?_⟩
  · exact ((C2_get_tensor_by_name "foo"
      (Graph.mk "g" [("foo:0", 10), ("foo:1", 11)] [])).2.1
      (by decide) (by decide)).trans (by decide)
  · exact (C2_get_tensor_by_name "bar" (Graph.mk "g" [("foo:0", 10)] [])).1
      (by decide)
  · exact ((C2_get_tensor_by_name "foo" (Graph.mk "g" [("foo:0", 10)] [])).2.2
      (by decide)).trans (by decide)

/-- C3 counterexample: with the process-wide float type configured to the
32-bit `tf.float32`, a raw numpy 64-bit float input normalizes to the
framework-wrapped `tf.float32` — not to the raw 32-bit numpy float type —
because the configured `FLOAT_TYPE` the float branch substitutes in is
itself a TensorFlow dtype object, refuting "a raw input yields the raw
normalized type" in the float branch. -/
theorem C3_counterexample :
    normalize_dtype TfDtype.tfFloat32 (DtypeLike.np NpType.float64) =
      Except.ok (DtypeLike.tf TfDtype.tfFloat32) ∧
    (Except.ok (DtypeLike.tf TfDtype.tfFloat32) : Except PyError DtypeLike) ≠
      Except.ok (DtypeLike.np NpType.float32) := by decide

/-- C3 (amended): `normalize_dtype` sends every input whose elemental type
is a 32- or 64-bit float to the configured process-wide float type — always
as the framework (`tf`) dtype object, whether the input was raw or wrapped,
since the configured `FLOAT_TYPE` is itself a framework dtype; it sends a
16-, 32- or 64-bit integer elemental type to the 32-bit integer type, raw
`np.int32` for a raw input and re-wrapped `tf.int32` for a wrapped input;
and it fails with an unknown-dtype `ValueError` naming the offending
(unwrapped) value for any other elemental type. -/
theorem C3_normalize_dtype (FLOAT_TYPE : TfDtype) (value : DtypeLike) :
    (value.elem = NpType.float32 ∨ value.elem = NpType.float64 →
      normalize_dtype FLOAT_TYPE value = Except.ok (DtypeLike.tf FLOAT_TYPE)) ∧
    (value.elem = NpType.int16 ∨ value.elem = NpType.int32 ∨
        value.elem = NpType.int64 →
      normalize_dtype FLOAT_TYPE value =
        Except.ok (match value with
          | .np _ => DtypeLike.np NpType.int32
          | .tf _ => DtypeLike.tf TfDtype.tfInt32)) ∧
    (value.elem ≠ NpType.float32 → value.elem ≠ NpType.float64 →
     value.elem ≠ NpType.int16 → value.elem ≠ NpType.int32 →
     value.elem ≠ NpType.int64 →
      normalize_dtype FLOAT_TYPE value = Except.error (PyError.valueError
        ("Unknown dtype \"" ++ value.elem.name ++ "\"."))) := by
  rcases value with t | d
  · cases t <;>
      simp [normalize_dtype, DtypeLike.elem, tf_as_dtype, NpType.toTf, NpType.name]
  · cases d <;>
      simp [normalize_dtype, DtypeLike.elem, TfDtype.as_numpy_dtype,
        tf_as_dtype, NpType.toTf, NpType.name]

/-- C3 witness: under a 32-bit configured float type, a wrapped 64-bit
float normalizes to wrapped `tf.float32`, a raw 16-bit integer normalizes
to raw `np.int32`, and a boolean dtype fails with the unknown-dtype
error. -/
theorem C3_witness :
    normalize_dtype TfDtype.tfFloat32 (DtypeLike.tf TfDtype.tfFloat64) =
      Except.ok (DtypeLike.tf TfDtype.tfFloat32) ∧
    normalize_dtype TfDtype.tfFloat32 (DtypeLike.np NpType.int16) =
      Except.ok (DtypeLike.np NpType.int32) ∧
    normalize_dtype TfDtype.tfFloat32 (DtypeLike.np NpType.npBool) =
      Except.error (PyError.valueError "Unknown dtype \"bool\".") := by
  refine ⟨?_, ?_, ?_⟩
  · exact (C3_normalize_dtype TfDtype.tfFloat32 (DtypeLike.tf TfDtype.tfFloat64)).1
      (by decide)
  · exact ((C3_normalize_dtype TfDtype.tfFloat32 (DtypeLike.np NpType.int16)).2.1
      (by decide)).trans (by decide)
  · exact ((C3_normalize_dtype TfDtype.tfFloat32 (DtypeLike.np NpType.npBool)).2.2
      (by decide) (by decide) (by decide) (by decide) (by decide)).trans (by decide)

theorem foldl_add_shift (l : List ((Nat × Nat) × Int)) :
    ∀ c : Int, l.foldl (fun acc q => acc + q.2) c =
      c + l.foldl (fun acc q => acc + q.2) 0 := by
  induction l with
  | nil => intro c; simp
  | cons q t ih =>
    intro c
    rw [List.foldl_cons, List.foldl_cons, ih (c + q.2), ih (0 + q.2)]
    omega

theorem scatterEntry_cons (a : Nat × Nat) (u : Int) (is : List (Nat × Nat))
    (us : List Int) (p : Nat × Nat) :
    scatterEntry (a :: is) (u :: us) p =
      (if a = p then u else 0) + scatterEntry is us p := by
  unfold scatterEntry
  rw [List.zip_cons_cons, List.filter_cons]
  by_cases h : a = p
  · rw [if_pos (by simpa using h), if_pos h, List.foldl_cons,
      foldl_add_shift ((is.zip us).filter fun q => q.1 == p) (0 + u)]
    omega
  · rw [if_neg (by simpa using h), if_neg h]
    omega

theorem scatterEntry_of_not_mem (indices : List (Nat × Nat)) (updates : List Int)
    (p : Nat × Nat) (h : p ∉ indices) : scatterEntry indices updates p = 0 := by
  induction indices generalizing updates with
  | nil => rfl
  | cons a is ih =>
    cases updates with
    | nil => rfl
    | cons u us =>
      have hpa : a ≠ p := fun he => h (he ▸ List.mem_cons_self a is)
      have hpis : p ∉ is := fun hm => h (List.mem_cons_of_mem a hm)
      rw [scatterEntry_cons, if_neg hpa, ih us hpis]
      omega

theorem scatterEntry_get (indices : List (Nat × Nat)) (updates : List Int)
    (hnd : indices.Nodup) :
    ∀ k (hk : k < indices.length) (hk' : k < updates.length),
      scatterEntry indices updates (indices.get ⟨k, hk⟩) =
        updates.get ⟨k, hk'⟩ := by
  induction indices generalizing updates with
  | nil => intro k hk; exact absurd hk (by simp)
  | cons a is ih =>
    intro k hk hk'
    cases updates with
    | nil => exact absurd hk' (by simp)
    | cons u us =>
      have hna : a ∉ is := (List.nodup_cons.mp hnd).1
      cases k with
      | zero =>
        rw [show (a :: is).get ⟨0, hk⟩ = a from rfl, scatterEntry_cons,
          if_pos rfl, scatterEntry_of_not_mem is us a hna,
          show (u :: us).get ⟨0, hk'⟩ = u from rfl]
        omega
      | succ k =>
        have hk2 : k < is.length := Nat.lt_of_succ_lt_succ hk
        have hk2' : k < us.length := Nat.lt_of_succ_lt_succ hk'
        have hget : (a :: is).get ⟨k + 1, hk⟩ = is.get ⟨k, hk2⟩ := rfl
        have hne : a ≠ is.get ⟨k, hk2⟩ :=
          fun he => hna (he ▸ List.get_mem is k hk2)
        rw [hget, scatterEntry_cons, if_neg hne,
          ih us ((List.nodup_cons.mp hnd).2) k hk2 hk2',
          show (u :: us).get ⟨k + 1, hk'⟩ = us.get ⟨k, hk2'⟩ from rfl]
        omega

theorem tril_indices_succ (N : Nat) :
    tril_indices (N + 1) =
      tril_indices N ++ (List.range (N + 1)).map (fun j => (N, j)) := by
  unfold tril_indices
  nth_rewrite 1 [List.range_succ]
  rw [List.flatMap_append]
  simp only [List.flatMap_cons, List.flatMap_nil, List.append_nil]

theorem mem_tril_indices {N : Nat} {p : Nat × Nat} :
    p ∈ tril_indices N ↔ p.1 < N ∧ p.2 ≤ p.1 := by
  rcases p with ⟨i, j⟩
  simp only [tril_indices, List.mem_flatMap, List.mem_map, List.mem_range]
  constructor
  · rintro ⟨a, ha, b, hb, heq⟩
    injection heq with h1 h2
    subst h1; subst h2
    exact ⟨ha, by omega⟩
  · rintro ⟨hi, hj⟩
    exact ⟨i, hi, j, by omega, rfl⟩

theorem nodup_tril_indices (N : Nat) : (tril_indices N).Nodup := by
  induction N with
  | zero => simp [tril_indices]
  | succ n ih =>
    rw [tril_indices_succ, List.nodup_append]
    refine ⟨ih, (List.nodup_range _).map (fun a b h => congrArg Prod.snd h), ?_⟩
    intro x hx1 hx2
    have h1 : x.1 < n := (mem_tril_indices.mp hx1).1
    have h2 : x.1 = n := by
      rcases List.mem_map.mp hx2 with ⟨j, _, rfl⟩
      rfl
    omega

theorem length_tril_indices (N : Nat) :
    (tril_indices N).length = N * (N + 1) / 2 := by
  induction N with
  | zero => rfl
  | succ n ih =>
    rw [tril_indices_succ, List.length_append, ih, List.length_map,
      List.length_range]
    have h2 : 2 ∣ n * (n + 1) := (Nat.even_mul_succ_self n).two_dvd
    have key : (n + 1) * (n + 1 + 1) = n * (n + 1) + 2 * (n + 1) := by ring
    generalize hA : n * (n + 1) = A at h2 key ⊢
    generalize hB : (n + 1) * (n + 1 + 1) = B at key ⊢
    omega

theorem matEntry_scatter_nd (indices : List (Nat × Nat)) (N : Nat)
    (updates : List Int) (i j : Nat) (hi : i < N) (hj : j < N) :
    matEntry (scatter_nd indices (N, N) updates) i j =
      scatterEntry indices updates (i, j) := by
  have h1 : (scatter_nd indices (N, N) updates).getD i [] =
      (List.range N).map (fun j => scatterEntry indices updates (i, j)) := by
    unfold scatter_nd
    rw [List.getD_eq_getElem _ _ (by simpa using hi)]
    simp
  unfold matEntry
  rw [h1, List.getD_eq_getElem _ _ (by simpa using hj)]
  simp

/-- C1: for a batch of vectors, `vec_to_tri(vectors, N)` preserves the
leading batch dimension, returns N×N matrices, and for every batch member
of length `M = N(N+1)/2` places entry `k` of the vector at the `k`-th
coordinate of the row-major lower-triangle enumeration `tril_indices N`
while every strictly upper-triangular entry is zero; in particular for
`N = 2` a batch of one vector `[a, b, c]` yields the single matrix
`[[a, 0], [b, c]]`. -/
theorem C1_vec_to_tri :
    (∀ (vectors : List (List Int)) (N : Nat),
      (vec_to_tri vectors N).length = vectors.length) ∧
    (∀ (vectors : List (List Int)) (N d : Nat), d < vectors.length →
      (vectors.getD d []).length = N * (N + 1) / 2 →
      ((vec_to_tri vectors N).getD d []).length = N ∧
      (∀ row ∈ (vec_to_tri vectors N).getD d [], row.length = N) ∧
      (∀ k, k < (vectors.getD d []).length →
        matEntry ((vec_to_tri vectors N).getD d [])
            ((tril_indices N).getD k (0, 0)).1
            ((tril_indices N).getD k (0, 0)).2 =
          (vectors.getD d []).getD k 0) ∧
      (∀ i j, i < j → j < N →
        matEntry ((vec_to_tri vectors N).getD d []) i j = 0)) ∧
    (∀ a b c : Int, vec_to_tri [[a, b, c]] 2 = [[[a, 0], [b, c]]]) := by
  refine ⟨fun vectors N => by simp [vec_to_tri], fun vectors N d hd hlen => ?_,
    fun a b c => by
      simp [vec_to_tri, scatter_nd, scatterEntry, tril_indices,
        List.range_succ, List.filter_cons, beq_iff_eq, Prod.ext_iff]⟩
  have hmd : (vec_to_tri vectors N).getD d [] =
      scatter_nd (tril_indices N) (N, N) (vectors.getD d []) := by
    unfold vec_to_tri
    rw [List.getD_eq_getElem _ _ (by simpa using hd), List.getElem_map,
      List.getD_eq_getElem _ _ hd]
  rw [hmd]
  refine ⟨by simp [scatter_nd], ?_, ?_, ?_⟩
  · intro row hrow
    unfold scatter_nd at hrow
    rcases List.mem_map.mp hrow with ⟨i, _, rfl⟩
    simp
  · intro k hk
    have hkM : k < (tril_indices N).length := by
      rw [length_tril_indices]; omega
    have hgetD : (tril_indices N).getD k (0, 0) =
        (tril_indices N).get ⟨k, hkM⟩ := by
      rw [List.getD_eq_getElem _ _ hkM]; rfl
    have hmem : (tril_indices N).getD k (0, 0) ∈ tril_indices N := by
      rw [hgetD]; exact List.get_mem _ _ _
    have hb := mem_tril_indices.mp hmem
    have hjN : ((tril_indices N).getD k (0, 0)).2 < N :=
      lt_of_le_of_lt hb.2 hb.1
    rw [matEntry_scatter_nd _ _ _ _ _ hb.1 hjN]
    rw [show ((((tril_indices N).getD k (0, 0)).1,
        ((tril_indices N).getD k (0, 0)).2) : Nat × Nat) =
        (tril_indices N).getD k (0, 0) from rfl]
    rw [hgetD, scatterEntry_get _ _ (nodup_tril_indices N) k hkM hk,
      List.getD_eq_getElem _ _ hk]
    exact List.get_eq_getElem _ _
  · intro i j hij hjN
    have hnm : ((i, j) : Nat × Nat) ∉ tril_indices N := by
      rw [mem_tril_indices]
      rintro ⟨-, h2⟩
      omega
    rw [matEntry_scatter_nd _ _ _ _ _ (by omega) hjN,
      scatterEntry_of_not_mem _ _ _ hnm]

/-- C1 witness: on the batch of one vector `[1, 2, 3]` with `N = 2`, the
batch dimension is preserved, vector entry `1` lands at coordinate `(1, 0)`
(the second lower-triangle coordinate), and the strictly upper entry
`(0, 1)` is zero. -/
theorem C1_witness :
    (vec_to_tri [[(1 : Int), 2, 3]] 2).length = 1 ∧
    matEntry ((vec_to_tri [[(1 : Int), 2, 3]] 2).getD 0 []) 1 0 = 2 ∧
    matEntry ((vec_to_tri [[(1 : Int), 2, 3]] 2).getD 0 []) 0 1 = 0 := by
  refine ⟨C1_vec_to_tri.1 [[1, 2, 3]] 2, ?_, ?_⟩
  · have h := (C1_vec_to_tri.2.1 [[(1 : Int), 2, 3]] 2 0 (by decide)
      (by decide)).2.2.1 1 (by decide)
    have e : (tril_indices 2).getD 1 (0, 0) = (1, 0) := by decide
    rw [e] at h
    exact h.trans (by decide)
  · exact (C1_vec_to_tri.2.1 [[(1 : Int), 2, 3]] 2 0 (by decide)
      (by decide)).2.2.2 0 1 (by decide) (by decide)
